import Mathlib

/-!
Verification of the cutting-parameter calculator (src/cutting_parameter_app.py)
against its natural-language specification. Python floats are embedded as
exact rationals (ℚ); Python float division, which raises ZeroDivisionError on
a zero denominator, is embedded as an Except value.
-/

/-- The one arithmetic exception the app's formulas can raise: Python's
ZeroDivisionError from float division by zero. -/
inductive PyError where
  | zeroDivisionError
deriving DecidableEq

/-- A row of the material reference dictionary (lines 9-15): the four numeric
properties of one material. -/
structure MaterialSpec where
  cutting_speed : ℚ
  machinability : ℚ
  tensile_strength : ℚ
  hardness : ℚ
deriving DecidableEq

/-- The `materials` dictionary (lines 9-15), in source order, keyed by name. -/
def materials : List (String × MaterialSpec) :=
  [("Aluminum 6061", ⟨300, 250, 310, 95⟩),
   ("Steel 1045", ⟨90, 140, 585, 170⟩),
   ("Titanium Grade 5 (Ti-6Al-4V)", ⟨50, 26, 950, 349⟩),
   ("Stainless Steel 304", ⟨70, 45, 505, 201⟩),
   ("Cast Iron", ⟨120, 180, 220, 180⟩)]

/-- The `tool_materials` dictionary (lines 17-23): tool material name to
cutting-speed multiplier. -/
def tool_materials : List (String × ℚ) :=
  [("HSS", 1.0), ("Carbide", 2.5), ("Ceramic", 5.0), ("CBN", 7.0), ("Diamond", 10.0)]

/-- Dictionary lookup in a material table. -/
def lookup_in (table : List (String × MaterialSpec)) (name : String) : Option MaterialSpec :=
  (table.find? (fun p => p.1 == name)).map (fun p => p.2)

/-- `materials[name]` on the startup table. -/
def lookup_material (name : String) : Option MaterialSpec :=
  lookup_in materials name

/-- `tool_materials[name]`. -/
def lookup_tool_material (name : String) : Option ℚ :=
  (tool_materials.find? (fun p => p.1 == name)).map (fun p => p.2)

/-- `calculate_rpm` (lines 26-27): `(cutting_speed * 1000) / (3.14 * tool_diameter)`.
Python float division raises ZeroDivisionError when the denominator is zero. -/
def calculate_rpm (cutting_speed tool_diameter : ℚ) : Except PyError ℚ :=
  if 3.14 * tool_diameter = 0 then Except.error PyError.zeroDivisionError
  else Except.ok ((cutting_speed * 1000) / (3.14 * tool_diameter))

/-- `calculate_feed_rate` (lines 29-30): `feed_per_tooth * number_of_teeth * rpm`. -/
def calculate_feed_rate (feed_per_tooth number_of_teeth rpm : ℚ) : ℚ :=
  feed_per_tooth * number_of_teeth * rpm

/-- `calculate_heat_generation` (lines 41-42): `0.5 * cutting_speed * feed_rate * cutting_force`. -/
def calculate_heat_generation (cutting_speed feed_rate cutting_force : ℚ) : ℚ :=
  0.5 * cutting_speed * feed_rate * cutting_force

/-- The cycle-time expression (line 134): `(depth_of_cut / feed_rate) * 60`;
Python raises ZeroDivisionError when `feed_rate` is zero. -/
def cycle_time (depth_of_cut feed_rate : ℚ) : Except PyError ℚ :=
  if feed_rate = 0 then Except.error PyError.zeroDivisionError
  else Except.ok ((depth_of_cut / feed_rate) * 60)

/-- The cost expression (line 136):
`(cycle_time / 60) * machine_hour_rate + tool_cost + material_cost`. -/
def estimated_cost (ct machine_hour_rate tool_cost material_cost : ℚ) : ℚ :=
  (ct / 60) * machine_hour_rate + tool_cost + material_cost

/-- The cost-estimation block (lines 134-136): the cycle time feeds the cost,
so a ZeroDivisionError in `cycle_time` aborts the whole computation. -/
def cost_estimation (depth_of_cut feed_rate machine_hour_rate tool_cost material_cost : ℚ) :
    Except PyError ℚ :=
  (cycle_time depth_of_cut feed_rate).map
    (fun ct => estimated_cost ct machine_hour_rate tool_cost material_cost)

/-- The two cooling recommendations the app can print (lines 124-127). -/
inductive Cooling where
  | floodCoolant
  | airOrMist
deriving DecidableEq

/-- The cooling/lubrication recommendation (lines 124-127): flood coolant when
the cutting speed exceeds 200, air blast or mist otherwise. -/
def cooling_recommendation (cutting_speed : ℚ) : Cooling :=
  if cutting_speed > 200 then Cooling.floodCoolant else Cooling.airOrMist

/-- Two-decimal display rounding, as in the `:.2f` format of the result lines. -/
def round2 (x : ℚ) : ℚ :=
  (⌊x * 100 + 1 / 2⌋ : ℤ) / 100

/-- The three quantities both tabs compute from the selection (lines 65-67 and
88-90): effective cutting speed, spindle rpm, feed rate. -/
structure TabResult where
  cutting_speed : ℚ
  rpm : Except PyError ℚ
  feed_rate : Except PyError ℚ

/-- The Basic tab's calculation block (lines 65-67): effective cutting speed
from the two dictionary lookups, then `calculate_rpm`, then `calculate_feed_rate`. -/
def basic_tab (selected_material selected_tool_material : String)
    (cutter_diameter feed_per_tooth number_of_teeth : ℚ) : Option TabResult :=
  match lookup_material selected_material, lookup_tool_material selected_tool_material with
  | some m, some mult =>
    let cutting_speed := m.cutting_speed * mult
    let rpm := calculate_rpm cutting_speed cutter_diameter
    let feed_rate := rpm.map (fun r => calculate_feed_rate feed_per_tooth number_of_teeth r)
    some ⟨cutting_speed, rpm, feed_rate⟩
  | _, _ => none

/-- The Advanced tab's calculation block (lines 88-90), written exactly as the
Advanced tab's own lines read: the same lookups and the same three formulas. -/
def advanced_tab (selected_material selected_tool_material : String)
    (cutter_diameter feed_per_tooth number_of_teeth : ℚ) : Option TabResult :=
  match lookup_material selected_material, lookup_tool_material selected_tool_material with
  | some m, some mult =>
    let cutting_speed := m.cutting_speed * mult
    let rpm := calculate_rpm cutting_speed cutter_diameter
    let feed_rate := rpm.map (fun r => calculate_feed_rate feed_per_tooth number_of_teeth r)
    some ⟨cutting_speed, rpm, feed_rate⟩
  | _, _ => none

/-- The rows of the CSV served by the download button (lines 154-158):
`to_csv(index=False)` on the transposed frame keeps only the four numeric
columns and drops the material-name index. -/
def export_download (table : List (String × MaterialSpec)) : List (ℚ × ℚ × ℚ × ℚ) :=
  table.map (fun p => (p.2.cutting_speed, p.2.machinability, p.2.tensile_strength, p.2.hardness))

/-- The startup table with one material renamed and every number unchanged:
it exports to the very same download CSV as `materials`. -/
def materialsRenamed : List (String × MaterialSpec) :=
  [("Aluminum 6063", ⟨300, 250, 310, 95⟩),
   ("Steel 1045", ⟨90, 140, 585, 170⟩),
   ("Titanium Grade 5 (Ti-6Al-4V)", ⟨50, 26, 950, 349⟩),
   ("Stainless Steel 304", ⟨70, 45, 505, 201⟩),
   ("Cast Iron", ⟨120, 180, 220, 180⟩)]

/-- The app's state relevant to material-database management: the reference
table the calculations read, and what the import branch last displayed. -/
structure AppState where
  materials : List (String × MaterialSpec)
  displayed : Option (List (String × MaterialSpec))
deriving DecidableEq

/-- The state at startup: the hard-coded table, nothing displayed. -/
def initState : AppState :=
  ⟨materials, none⟩

/-- The Import Materials branch (lines 145-149): `pd.read_csv` parses the
upload and `st.write` displays it; the `materials` dictionary used by the
calculations is never assigned. -/
def import_materials (s : AppState) (rows : List (String × MaterialSpec)) : AppState :=
  { s with displayed := some rows }

/-- A one-row upload used to exercise the import branch. -/
def importedRows : List (String × MaterialSpec) :=
  [("Brass", ⟨150, 200, 350, 100⟩)]

/-- Claim C1 counterexample: at cutting_speed 314 and diameter 100 the code
returns exactly 1000 rpm, which is more than 0.5 rpm above the value
(314*1000)/(π*100) the claim prescribes — far outside floating tolerance. -/
theorem calculate_rpm_pi_gap :
    calculate_rpm 314 100 = Except.ok 1000 ∧
      1 / 2 < (1000 : ℝ) - 314 * 1000 / (Real.pi * 100) := by
  constructor
  · norm_num [calculate_rpm]
  · have hpos : (0 : ℝ) < Real.pi * 100 := by positivity
    have h2 : (314 * 1000 : ℝ) / (Real.pi * 100) < 999.5 := by
      rw [div_lt_iff₀ hpos]
      nlinarith [Real.pi_gt_d6]
    linarith

/-- Claim C1 amended: for cutting_speed ≥ 0 and tool_diameter > 0,
`calculate_rpm` returns exactly (cutting_speed*1000)/(3.14*tool_diameter):
the code uses the literal 3.14, not the mathematical constant π. -/
theorem calculate_rpm_uses_3_14 (cs d : ℚ) (hcs : 0 ≤ cs) (hd : 0 < d) :
    calculate_rpm cs d = Except.ok ((cs * 1000) / (3.14 * d)) := by
  have hne : (3.14 : ℚ) * d ≠ 0 := mul_ne_zero (by norm_num) hd.ne'
  simp [calculate_rpm, hne]

/-- Witness for C1's amended theorem at cutting_speed 300, diameter 10. -/
theorem calculate_rpm_uses_3_14_witness :
    calculate_rpm 300 10 = Except.ok ((300 * 1000) / (3.14 * 10)) :=
  calculate_rpm_uses_3_14 300 10 (by norm_num) (by norm_num)

/-- Claim C2: Aluminum 6061 with a Carbide tool, diameter 10 mm, feed per
tooth 0.1 mm, 4 teeth gives effective cutting speed 750, rpm 3750000/157
(displayed 23885.35) and feed rate 1500000/157 (displayed 9554.14). -/
theorem aluminum_carbide_example :
    basic_tab "Aluminum 6061" "Carbide" 10 (1 / 10) 4 =
        some ⟨750, Except.ok (3750000 / 157), Except.ok (1500000 / 157)⟩ ∧
      round2 (3750000 / 157) = 23885.35 ∧ round2 (1500000 / 157) = 9554.14 := by
  refine ⟨?_, ?_, ?_⟩
  · have h1 : lookup_material "Aluminum 6061" = some ⟨300, 250, 310, 95⟩ := rfl
    have h2 : lookup_tool_material "Carbide" = some 2.5 := rfl
    rw [basic_tab, h1, h2]
    have h3 : (300 : ℚ) * 2.5 = 750 := by norm_num
    simp only [h3, calculate_rpm, calculate_feed_rate, Except.map]
    norm_num
  · rw [round2]
    norm_num
  · rw [round2]
    norm_num

/-- Claim C3: a zero tool diameter makes `calculate_rpm` raise
ZeroDivisionError to its caller; no numeric value is produced. -/
theorem calculate_rpm_zero_diameter (cs : ℚ) :
    calculate_rpm cs 0 = Except.error PyError.zeroDivisionError := by
  simp [calculate_rpm]

/-- Claim C4 counterexample: at depth_of_cut 2 and feed_rate 0 the cycle-time
expression raises ZeroDivisionError; it does not return an infinity sentinel. -/
theorem cycle_time_zero_feed_cex :
    cycle_time 2 0 = Except.error PyError.zeroDivisionError := by
  simp [cycle_time]

/-- Claim C4 amended: for every depth_of_cut, when feed_rate = 0 the
cycle-time expression raises ZeroDivisionError, so the cost-estimation block
propagates that error and no estimated_cost value is produced. -/
theorem cost_estimation_zero_feed (depth rate tc mc : ℚ) :
    cost_estimation depth 0 rate tc mc = Except.error PyError.zeroDivisionError ∧
      cycle_time depth 0 = Except.error PyError.zeroDivisionError := by
  constructor <;> simp [cost_estimation, cycle_time, Except.map]

/-- Claim C5 counterexample: at inputs (1, 1, 1) the code computes heat
generation 0.5, not the 0.8 the claim's constant k = 0.8 would give. -/
theorem heat_generation_constant_cex :
    calculate_heat_generation 1 1 1 = 0.5 ∧
      calculate_heat_generation 1 1 1 ≠ 0.8 * 1 * 1 * 1 := by
  constructor <;> norm_num [calculate_heat_generation]

/-- Claim C5 amended: for nonnegative inputs, heat generation equals
k * cutting_speed * feed_rate * cutting_force with k = 0.5, the constant in
the code (not 0.8). -/
theorem heat_generation_eq_half (cs fr cf : ℚ) (h1 : 0 ≤ cs) (h2 : 0 ≤ fr) (h3 : 0 ≤ cf) :
    calculate_heat_generation cs fr cf = 0.5 * cs * fr * cf := rfl

/-- Witness for C5's amended theorem at inputs (2, 3, 4). -/
theorem heat_generation_eq_half_witness :
    calculate_heat_generation 2 3 4 = 0.5 * 2 * 3 * 4 :=
  heat_generation_eq_half 2 3 4 (by norm_num) (by norm_num) (by norm_num)

/-- Claim C6: with cycle time fixed and nonnegative, the estimated cost is
monotone non-decreasing in the machine hour rate, the tool cost and the
material cost. -/
theorem estimated_cost_monotone (ct r1 r2 tc1 tc2 mc1 mc2 : ℚ)
    (hct : 0 ≤ ct) (hr : r1 ≤ r2) (htc : tc1 ≤ tc2) (hmc : mc1 ≤ mc2) :
    estimated_cost ct r1 tc1 mc1 ≤ estimated_cost ct r2 tc2 mc2 := by
  unfold estimated_cost
  have hq : 0 ≤ ct / 60 := by positivity
  have := mul_le_mul_of_nonneg_left hr hq
  linarith

/-- Witness for C6 at cycle time 60, rates 50 ≤ 60, tool cost 100 ≤ 100,
material cost 2 ≤ 3. -/
theorem estimated_cost_monotone_witness :
    estimated_cost 60 50 100 2 ≤ estimated_cost 60 60 100 3 :=
  estimated_cost_monotone 60 50 60 100 100 2 3
    (by norm_num) (by norm_num) (by norm_num) (by norm_num)

/-- Claim C7 (code bug): the downloaded export of the startup table equals the
export of a table with a material renamed, because `to_csv(index=False)` drops
the name key; hence no import function can round-trip the downloaded export
back to the original table. -/
theorem export_download_loses_names :
    export_download materials = export_download materialsRenamed ∧
      materials ≠ materialsRenamed ∧
      ∀ imp : List (ℚ × ℚ × ℚ × ℚ) → List (String × MaterialSpec),
        imp (export_download materials) = materials →
          imp (export_download materialsRenamed) ≠ materialsRenamed := by
  refine ⟨rfl, by decide, ?_⟩
  intro imp h hbad
  have hexp : export_download materials = export_download materialsRenamed := rfl
  rw [hexp] at h
  rw [hbad] at h
  exact absurd h.symm (by decide)

/-- Claim C8 counterexample: importing a one-row table leaves the reference
table exactly the startup table, which is not the imported row set, and a
lookup in the post-import table still finds the original Aluminum 6061 entry
while the imported Brass row is absent. -/
theorem import_leaves_table_cex :
    (import_materials initState importedRows).materials = materials ∧
      materials ≠ importedRows ∧
      lookup_in (import_materials initState importedRows).materials "Brass" = none ∧
      lookup_in (import_materials initState importedRows).materials "Aluminum 6061" =
        some ⟨300, 250, 310, 95⟩ := by
  refine ⟨rfl, by decide, by decide, by decide⟩

/-- Claim C8 amended: the import branch only parses and displays the uploaded
rows; the material reference table is unchanged, so subsequent calculations
keep using the pre-existing table. -/
theorem import_preserves_table (s : AppState) (rows : List (String × MaterialSpec)) :
    (import_materials s rows).materials = s.materials ∧
      (import_materials s rows).displayed = some rows := by
  exact ⟨rfl, rfl⟩

/-- Claim C9: the cooling recommendation is two-tier with threshold 200:
flood coolant above 200, air blast or mist at 200 and below. -/
theorem cooling_recommendation_two_tier (cs : ℚ) :
    (200 < cs → cooling_recommendation cs = Cooling.floodCoolant) ∧
      (cs ≤ 200 → cooling_recommendation cs = Cooling.airOrMist) := by
  constructor
  · intro h
    simp [cooling_recommendation, h]
  · intro h
    simp [cooling_recommendation, not_lt.mpr h]

/-- Witness for C9: cooling_recommendation 250 is flood coolant and
cooling_recommendation 150 is air blast or mist. -/
theorem cooling_recommendation_two_tier_witness :
    cooling_recommendation 250 = Cooling.floodCoolant ∧
      cooling_recommendation 150 = Cooling.airOrMist :=
  ⟨(cooling_recommendation_two_tier 250).1 (by norm_num),
   (cooling_recommendation_two_tier 150).2 (by norm_num)⟩

/-- Claim C10: for equal selections and inputs the Basic and Advanced tabs
compute identical effective cutting speed, rpm and feed rate: the two
calculation blocks are the same composition of the same functions. -/
theorem basic_advanced_tabs_agree (sm stm : String) (d fpt n : ℚ) :
    basic_tab sm stm d fpt n = advanced_tab sm stm d fpt n := rfl
